import Mathlib

/-!
Shallow embedding of the scene-lifecycle logic of the
threejs-nextjs-typescript-starterkit repository, together with proofs of
the spec's testable properties.

Sources embedded:
* `src/components/RotatingCube.tsx` — mouse drag handlers, the animate
  loop body, the resize handler, the mount guard and the cleanup order.
* `src/components/ImmersiveScene.tsx` — procedural city generation and
  the particle-system tick.
* the galactic solar-system component — the galaxy point-cloud build
  loop and the per-frame update.

Numbers are modelled as rationals (the JS numerics in question are exact
small decimals), and transcendental library calls (`Math.sin`,
`Math.cos`) and the `Math.random()` stream are passed in as explicit
oracle functions, so every definition stays executable and the output is
a pure function of its inputs.
-/

namespace ThreeStarter

/-- A pointer position in client pixel coordinates (`event.clientX/Y`). -/
structure Pt where
  x : ℚ
  y : ℚ
deriving DecidableEq, Repr

/-- Cube-demo configuration: the React state of `RotatingCube`
(`cubeColor`, `cubeSize`, `autoRotate`, `rotationSpeed`, `cubeTexture`). -/
structure CubeConfig where
  color : String
  size : ℚ
  autoRotate : Bool
  rotationSpeed : ℚ
  material : String
deriving DecidableEq, Repr

/-- The default configuration of the cube demo (the initial `useState`
values in `RotatingCube.tsx`). -/
def cubeDemoConfig : CubeConfig :=
  { color := "#00ff88", size := 3/2, autoRotate := true,
    rotationSpeed := 1, material := "solid" }

/-- The mutable state of the cube demo touched by the animate loop and
the mouse handlers: `cube.rotation.x/y`, `cube.position.y`,
`isDraggingRef` and `previousMousePositionRef`. -/
structure CubeState where
  rotX : ℚ
  rotY : ℚ
  posY : ℚ
  isDragging : Bool
  prevMouse : Pt
deriving DecidableEq, Repr

/-- The fixed sensitivity multiplier of `handleMouseMove`
(`const rotationSpeed = 0.01`). -/
def mouseSensitivity : ℚ := 1/100

/-- The handler `handleMouseDown`: set the dragging flag and record the starting
pointer position. -/
def handleMouseDown (p : Pt) (s : CubeState) : CubeState :=
  { s with isDragging := true, prevMouse := p }

/-- The handler `handleMouseMove`: while dragging, convert the pointer delta since
the previous event into rotation deltas (horizontal movement drives the
y axis, vertical movement the x axis) and record the new position. -/
def handleMouseMove (p : Pt) (s : CubeState) : CubeState :=
  if s.isDragging then
    { s with
      rotY := s.rotY + (p.x - s.prevMouse.x) * mouseSensitivity
      rotX := s.rotX + (p.y - s.prevMouse.y) * mouseSensitivity
      prevMouse := p }
  else s

/-- The handler `handleMouseUp`: clear the dragging flag. -/
def handleMouseUp (s : CubeState) : CubeState :=
  { s with isDragging := false }

/-- One invocation of the `animate` loop body of `RotatingCube.tsx`, as
far as it touches the cube. `sinO` is the `Math.sin` oracle and `now`
the `Date.now()` reading in milliseconds.

* auto-rotation: when `autoRotate` is on and no drag is in progress,
  both rotation axes advance by `0.01 * rotationSpeed`;
* floating: when `autoRotate` is on, `position.y` is set to
  `sin(now * 0.001) * 0.2`, otherwise it is reset to `0`. -/
def animateTick (sinO : ℚ → ℚ) (cfg : CubeConfig) (now : ℚ)
    (s : CubeState) : CubeState :=
  let s1 :=
    if cfg.autoRotate && !s.isDragging then
      { s with
        rotX := s.rotX + (1/100) * cfg.rotationSpeed
        rotY := s.rotY + (1/100) * cfg.rotationSpeed }
    else s
  if cfg.autoRotate then
    { s1 with posY := sinO (now * (1/1000)) * (2/10) }
  else
    { s1 with posY := 0 }

/-- An event observed between pointer-down and pointer-up: either a
pointer-move to an absolute position, or one frame tick of the animate
loop occurring mid-drag. -/
inductive DragEvent where
  | move (p : Pt)
  | tick (now : ℚ)

/-- Dispatch one mid-drag event to the handler the browser would run. -/
def dragStep (sinO : ℚ → ℚ) (cfg : CubeConfig) (s : CubeState) :
    DragEvent → CubeState
  | .move p => handleMouseMove p s
  | .tick now => animateTick sinO cfg now s

/-- A full drag gesture: pointer-down at `p0`, then the interleaved
moves and frame ticks of `events`, then pointer-up. -/
def dragTrace (sinO : ℚ → ℚ) (cfg : CubeConfig) (s0 : CubeState)
    (p0 : Pt) (events : List DragEvent) : CubeState :=
  handleMouseUp (events.foldl (dragStep sinO cfg) (handleMouseDown p0 s0))

/-- The pointer position at the end of a gesture that started at `p0`:
the position of the last move event, if any. -/
def dragEnd (p0 : Pt) : List DragEvent → Pt
  | [] => p0
  | .move p :: rest => dragEnd p rest
  | .tick _ :: rest => dragEnd p0 rest

/-- The quantity `rotY - prevMouse.x * sensitivity`, invariant along a
drag (each move adds the same delta to both terms). -/
def dragPotY (s : CubeState) : ℚ := s.rotY - s.prevMouse.x * mouseSensitivity

/-- The quantity `rotX - prevMouse.y * sensitivity`, invariant along a
drag. -/
def dragPotX (s : CubeState) : ℚ := s.rotX - s.prevMouse.y * mouseSensitivity

/-- One mid-drag event keeps the dragging flag set, preserves both drag
potentials, and moves `prevMouse` only on a move event. -/
lemma dragStep_invariant (sinO : ℚ → ℚ) (cfg : CubeConfig)
    (s : CubeState) (e : DragEvent) (h : s.isDragging = true) :
    (dragStep sinO cfg s e).isDragging = true ∧
    dragPotY (dragStep sinO cfg s e) = dragPotY s ∧
    dragPotX (dragStep sinO cfg s e) = dragPotX s ∧
    (dragStep sinO cfg s e).prevMouse =
      (match e with | .move p => p | .tick _ => s.prevMouse) := by
  cases e with
  | move p =>
    refine ⟨?_, ?_, ?_, ?_⟩ <;>
      simp [dragStep, handleMouseMove, h, dragPotY, dragPotX] <;> ring
  | tick now =>
    cases hcfg : cfg.autoRotate <;>
      refine ⟨?_, ?_, ?_, ?_⟩ <;>
        simp [dragStep, animateTick, h, hcfg, dragPotY, dragPotX]

/-- While the dragging flag is set, the fold over mid-drag events keeps
the flag set, keeps both drag potentials invariant, and ends with
`prevMouse` at the last move position. -/
lemma dragFold_invariant (sinO : ℚ → ℚ) (cfg : CubeConfig) :
    ∀ (events : List DragEvent) (s : CubeState), s.isDragging = true →
      (events.foldl (dragStep sinO cfg) s).isDragging = true ∧
      dragPotY (events.foldl (dragStep sinO cfg) s) = dragPotY s ∧
      dragPotX (events.foldl (dragStep sinO cfg) s) = dragPotX s ∧
      (events.foldl (dragStep sinO cfg) s).prevMouse = dragEnd s.prevMouse events := by
  intro events
  induction events with
  | nil => intro s h; exact ⟨h, rfl, rfl, rfl⟩
  | cons e rest ih =>
    intro s h
    obtain ⟨f1, f2, f3, f4⟩ := dragStep_invariant sinO cfg s e h
    obtain ⟨h1, h2, h3, h4⟩ := ih (dragStep sinO cfg s e) f1
    rw [List.foldl_cons]
    refine ⟨h1, by rw [h2, f2], by rw [h3, f3], ?_⟩
    rw [h4, f4]
    cases e <;> rfl

/-- C3: For every drag gesture — pointer down at `p0`, any interleaving
of pointer moves and frame ticks, pointer up — the accumulated rotation
delta equals the total pointer displacement times the fixed sensitivity
`0.01`, horizontal displacement on the y axis and vertical displacement
on the x axis. The equality holds for every configuration (including
`autoRotate = true`) and any number of mid-drag frame ticks, so the
automatic animation is suppressed for the whole duration of the drag. -/
theorem drag_gesture_rotation_delta (sinO : ℚ → ℚ) (cfg : CubeConfig)
    (s0 : CubeState) (p0 : Pt) (events : List DragEvent) :
    (dragTrace sinO cfg s0 p0 events).rotY =
      s0.rotY + ((dragEnd p0 events).x - p0.x) * mouseSensitivity ∧
    (dragTrace sinO cfg s0 p0 events).rotX =
      s0.rotX + ((dragEnd p0 events).y - p0.y) * mouseSensitivity := by
  obtain ⟨_, h2, h3, h4⟩ :=
    dragFold_invariant sinO cfg events (handleMouseDown p0 s0) rfl
  have hdown : handleMouseDown p0 s0 =
      { s0 with isDragging := true, prevMouse := p0 } := rfl
  rw [hdown] at h2 h3 h4
  simp only [dragPotY, dragPotX] at h2 h3
  simp only [dragTrace, handleMouseUp, hdown] at *
  constructor
  · rw [h4] at h2; linarith [h2]
  · rw [h4] at h3; linarith [h3]

/-- C4: With the default configuration (`autoRotate = true`,
`speed = 1.0`) and no drag in progress, one tick of the frame loop
advances both rotation axes by `0.01 * speed` and sets the vertical
position to `sin(t) * 0.2`, where `t = now * 0.001` is the current time
in seconds. -/
theorem default_config_tick (sinO : ℚ → ℚ) (now : ℚ) (s : CubeState)
    (h : s.isDragging = false) :
    (animateTick sinO cubeDemoConfig now s).rotX =
      s.rotX + (1/100) * cubeDemoConfig.rotationSpeed ∧
    (animateTick sinO cubeDemoConfig now s).rotY =
      s.rotY + (1/100) * cubeDemoConfig.rotationSpeed ∧
    (animateTick sinO cubeDemoConfig now s).posY =
      sinO (now * (1/1000)) * (2/10) := by
  refine ⟨?_, ?_, ?_⟩ <;> simp [animateTick, cubeDemoConfig, h]

/-- Witness for `default_config_tick` at the state
`rotX = rotY = posY = 0`, `prevMouse = (0, 0)`, time `now = 0`, with the
identity function standing in for the `Math.sin` oracle. -/
theorem default_config_tick_witness :
    (⟨0, 0, 0, false, ⟨0, 0⟩⟩ : CubeState).isDragging = false ∧
    ((animateTick (fun q => q) cubeDemoConfig 0 ⟨0, 0, 0, false, ⟨0, 0⟩⟩).rotX =
        (⟨0, 0, 0, false, ⟨0, 0⟩⟩ : CubeState).rotX +
          (1/100) * cubeDemoConfig.rotationSpeed ∧
      (animateTick (fun q => q) cubeDemoConfig 0 ⟨0, 0, 0, false, ⟨0, 0⟩⟩).rotY =
        (⟨0, 0, 0, false, ⟨0, 0⟩⟩ : CubeState).rotY +
          (1/100) * cubeDemoConfig.rotationSpeed ∧
      (animateTick (fun q => q) cubeDemoConfig 0 ⟨0, 0, 0, false, ⟨0, 0⟩⟩).posY =
        (fun q : ℚ => q) (0 * (1/1000)) * (2/10)) :=
  ⟨rfl, default_config_tick (fun q => q) 0 ⟨0, 0, 0, false, ⟨0, 0⟩⟩ rfl⟩

/-- C10: Whenever auto-rotation is disabled, a frame tick sets the
cube's vertical position to exactly `0`, for every state (in particular
regardless of the dragging flag); and with auto-rotation enabled the
same tick applies the sinusoidal float `sin(now * 0.001) * 0.2`. -/
theorem manual_mode_grounds_cube (sinO : ℚ → ℚ) (cfg : CubeConfig)
    (now : ℚ) (s : CubeState) (h : cfg.autoRotate = false) :
    (animateTick sinO cfg now s).posY = 0 ∧
    (animateTick sinO { cfg with autoRotate := true } now s).posY =
      sinO (now * (1/1000)) * (2/10) := by
  constructor
  · simp [animateTick, h]
  · cases hd : s.isDragging <;> simp [animateTick, hd]

/-- Witness for `manual_mode_grounds_cube` at a concrete dragging state
with auto-rotation off. -/
theorem manual_mode_grounds_cube_witness :
    ({ cubeDemoConfig with autoRotate := false } : CubeConfig).autoRotate = false ∧
    ((animateTick (fun q => q) { cubeDemoConfig with autoRotate := false } 7
          ⟨1, 2, 3, true, ⟨4, 5⟩⟩).posY = 0 ∧
      (animateTick (fun q => q)
          { { cubeDemoConfig with autoRotate := false } with autoRotate := true } 7
          ⟨1, 2, 3, true, ⟨4, 5⟩⟩).posY = (fun q : ℚ => q) (7 * (1/1000)) * (2/10)) :=
  ⟨rfl, manual_mode_grounds_cube (fun q => q)
    { cubeDemoConfig with autoRotate := false } 7 ⟨1, 2, 3, true, ⟨4, 5⟩⟩ rfl⟩

/-! Resize Reactor (`handleResize` in `RotatingCube.tsx` and the
galactic solar-system component) -/

/-- The measurements the resize handler reads: the mount container's
`clientWidth`/`clientHeight` and the window's `innerWidth`/`innerHeight`
fallbacks. -/
structure MountMeasure where
  clientW : ℚ
  clientH : ℚ
  innerW : ℚ
  innerH : ℚ
deriving DecidableEq, Repr

/-- JS `a || b` on numbers: `b` when `a` is `0` (falsy), else `a`. -/
def jsOr (a b : ℚ) : ℚ := if a = 0 then b else a

/-- The camera / drawing-surface state the resize handler writes:
`camera.aspect` and the renderer's size. -/
structure ViewState where
  aspect : ℚ
  surfaceW : ℚ
  surfaceH : ℚ
deriving DecidableEq, Repr

/-- The handler `handleResize`: if the mount point is gone, do nothing; otherwise
read `clientWidth || innerWidth` and `clientHeight || innerHeight`, set
the camera aspect to `width / height`, and resize the renderer to
`width × height`. -/
def handleResize (mounted : Bool) (m : MountMeasure) (v : ViewState) :
    ViewState :=
  if mounted then
    let w := jsOr m.clientW m.innerW
    let h := jsOr m.clientH m.innerH
    { aspect := w / h, surfaceW := w, surfaceH := h }
  else v

/-- C5: For measured mount dimensions `W × H` with `W, H > 0`, one run
of the resize handler makes the camera aspect exactly `W / H` and
resizes the drawing surface to `W × H`; a second run with the same
measurements changes nothing. -/
theorem resize_aspect_and_idempotent (m : MountMeasure) (v : ViewState)
    (hW : 0 < m.clientW) (hH : 0 < m.clientH) :
    (handleResize true m v).aspect = m.clientW / m.clientH ∧
    (handleResize true m v).surfaceW = m.clientW ∧
    (handleResize true m v).surfaceH = m.clientH ∧
    handleResize true m (handleResize true m v) = handleResize true m v := by
  have hw : jsOr m.clientW m.innerW = m.clientW := by
    simp [jsOr, ne_of_gt hW]
  have hh : jsOr m.clientH m.innerH = m.clientH := by
    simp [jsOr, ne_of_gt hH]
  refine ⟨?_, ?_, ?_, ?_⟩ <;> simp [handleResize, hw, hh]

/-- Witness for `resize_aspect_and_idempotent` at an 800×600 mount. -/
theorem resize_aspect_witness :
    (0 : ℚ) < (⟨800, 600, 1024, 768⟩ : MountMeasure).clientW ∧
    (0 : ℚ) < (⟨800, 600, 1024, 768⟩ : MountMeasure).clientH ∧
    ((handleResize true ⟨800, 600, 1024, 768⟩ ⟨1, 0, 0⟩).aspect =
        (⟨800, 600, 1024, 768⟩ : MountMeasure).clientW /
          (⟨800, 600, 1024, 768⟩ : MountMeasure).clientH ∧
      (handleResize true ⟨800, 600, 1024, 768⟩ ⟨1, 0, 0⟩).surfaceW =
        (⟨800, 600, 1024, 768⟩ : MountMeasure).clientW ∧
      (handleResize true ⟨800, 600, 1024, 768⟩ ⟨1, 0, 0⟩).surfaceH =
        (⟨800, 600, 1024, 768⟩ : MountMeasure).clientH ∧
      handleResize true ⟨800, 600, 1024, 768⟩
          (handleResize true ⟨800, 600, 1024, 768⟩ ⟨1, 0, 0⟩) =
        handleResize true ⟨800, 600, 1024, 768⟩ ⟨1, 0, 0⟩) :=
  ⟨by decide, by decide,
    resize_aspect_and_idempotent ⟨800, 600, 1024, 768⟩ ⟨1, 0, 0⟩
      (by decide) (by decide)⟩

/-! Mount guard (the start of the `useEffect` body in
`RotatingCube.tsx` and `ImmersiveScene.tsx`) -/

/-- Observable mount-point state: whether a renderer is bound
(`rendererRef.current`) and how many child nodes (canvases) hang under
the mount point. -/
structure MountState where
  rendererBound : Bool
  canvasCount : ℕ
deriving DecidableEq, Repr

/-- One mount attempt (the `useEffect` body up to renderer creation):
first remove every existing child of the mount point
(`while (mountRef.current.firstChild) removeChild(...)`), then bail out
if a renderer is already bound, otherwise create a renderer and append
its canvas. -/
def mountAttempt (st : MountState) : MountState :=
  let cleared : MountState := { st with canvasCount := 0 }
  if cleared.rendererBound then cleared
  else { rendererBound := true, canvasCount := 1 }

/-- The mount state before any mount attempt: no renderer, no canvas. -/
def freshMount : MountState := ⟨false, 0⟩

/-- C6 counterexample: mounting a second time on an already-bound mount
point is not a no-op — the second attempt's clearing loop removes the
canvas the first attempt appended, so the state after two attempts
(`canvasCount = 0`) differs from the state after one (`canvasCount = 1`). -/
theorem second_mount_not_noop :
    mountAttempt (mountAttempt freshMount) ≠ mountAttempt freshMount := by
  decide

/-- C6 amended: after two mount attempts exactly one renderer is bound —
the duplicate-initialization guard prevents a second renderer and a
second canvas — but the second attempt is not observationally a no-op:
its clearing loop detaches the existing canvas, leaving zero canvases
under the mount point. -/
theorem second_mount_single_renderer (st : MountState) :
    (mountAttempt st).rendererBound = true ∧
    (mountAttempt (mountAttempt st)).rendererBound = true ∧
    (mountAttempt (mountAttempt st)).canvasCount = 0 := by
  cases h : st.rendererBound <;> simp [mountAttempt, h]

/-! Frame Driver scheduling (`requestAnimationFrame` /
`cancelAnimationFrame` around `animate`) -/

/-- The animation-frame scheduling state of one scene instance:
`pending` is the id stored in `animationIdRef` when a frame request is
queued, `nextId` the next id the host would hand out, and `draws` counts
completed draw calls. -/
structure FrameSched where
  pending : Option ℕ
  nextId : ℕ
  draws : ℕ
deriving DecidableEq, Repr

/-- The host runs the queued animation frame, if one is queued: the
`animate` callback first requests the next frame (storing the new id in
`animationIdRef`) and then renders once. With nothing queued, nothing
runs. -/
def runFrame (s : FrameSched) : FrameSched :=
  match s.pending with
  | none => s
  | some _ => { pending := some s.nextId, nextId := s.nextId + 1, draws := s.draws + 1 }

/-- The teardown's frame-driver step:
`if (animationIdRef.current) cancelAnimationFrame(animationIdRef.current)`
— the pending request, if any, is cancelled. -/
def cancelPendingFrame (s : FrameSched) : FrameSched :=
  { s with pending := none }

/-- C7: After the teardown cancels the pending frame request, no frame
callback ever runs again: however many scheduler steps the host performs
afterwards, nothing is queued and the draw counter never advances. -/
theorem no_draw_after_teardown (s : FrameSched) (n : ℕ) :
    (runFrame^[n] (cancelPendingFrame s)).pending = none ∧
    (runFrame^[n] (cancelPendingFrame s)).draws = s.draws := by
  have hnone : ∀ t : FrameSched, t.pending = none → runFrame t = t := by
    intro t ht; simp [runFrame, ht]
  induction n with
  | zero => exact ⟨rfl, rfl⟩
  | succ k ih =>
    obtain ⟨h1, h2⟩ := ih
    rw [Function.iterate_succ_apply', hnone _ h1]
    exact ⟨h1, h2⟩

/-! Teardown Sequencer (the `useEffect` cleanup functions) -/

/-- The release actions a cleanup function can perform. -/
inductive TeardownStep where
  | removeResizeListener
  | cancelFrame
  | disposeControls
  | removeInputListeners
  | detachCanvas
  | disposeRenderer
  | disposeGpuResources
deriving DecidableEq, Repr

/-- The release actions of the `RotatingCube` cleanup, in source order:
resize listener removal, frame cancellation, controls disposal, mouse
listener removal, canvas detachment, renderer disposal, then disposal
of the geometries and materials built at mount. -/
def rotatingCubeTeardown : List TeardownStep :=
  [.removeResizeListener, .cancelFrame, .disposeControls,
   .removeInputListeners, .detachCanvas, .disposeRenderer,
   .disposeGpuResources]

/-- The release actions of the `ImmersiveScene` cleanup, in source
order. It removes the resize listener, cancels the frame, disposes the
controls, detaches the canvas and disposes the renderer; it registers no
manual input listeners, and it never disposes the geometries and
materials its content builder allocated. -/
def immersiveSceneTeardown : List TeardownStep :=
  [.removeResizeListener, .cancelFrame, .disposeControls,
   .detachCanvas, .disposeRenderer]

/-- Step `a` runs strictly before step `b` in the teardown sequence `l` (both must
occur). -/
def runsBefore (l : List TeardownStep) (a b : TeardownStep) : Prop :=
  a ∈ l ∧ b ∈ l ∧ l.indexOf a < l.indexOf b

instance (l : List TeardownStep) (a b : TeardownStep) :
    Decidable (runsBefore l a b) := by
  unfold runsBefore; infer_instance

/-- The order C1 claims: frame cancellation, then input listener
removal, then resize listener removal, then canvas detachment, then
GPU-resource disposal. -/
def claimedTeardownOrder (l : List TeardownStep) : Prop :=
  runsBefore l .cancelFrame .removeInputListeners ∧
  runsBefore l .removeInputListeners .removeResizeListener ∧
  runsBefore l .removeResizeListener .detachCanvas ∧
  runsBefore l .detachCanvas .disposeGpuResources

instance (l : List TeardownStep) : Decidable (claimedTeardownOrder l) := by
  unfold claimedTeardownOrder; infer_instance

/-- C1 counterexample: the `RotatingCube` cleanup does not perform the
release steps in the claimed order — it removes the resize listener
first, before cancelling the frame request and before removing the
mouse listeners. -/
theorem teardown_order_not_as_claimed :
    ¬ claimedTeardownOrder rotatingCubeTeardown := by
  decide

/-- C1 amended: the `RotatingCube` cleanup releases in the order resize
listener removal → frame cancellation → controls disposal → input
listener removal → canvas detachment → renderer disposal → geometry and
material disposal; the `ImmersiveScene` cleanup releases in the order
resize listener removal → frame cancellation → controls disposal →
canvas detachment → renderer disposal, and never disposes the
geometries/materials its content builder allocated. -/
theorem teardown_actual_order :
    runsBefore rotatingCubeTeardown .removeResizeListener .cancelFrame ∧
    runsBefore rotatingCubeTeardown .cancelFrame .disposeControls ∧
    runsBefore rotatingCubeTeardown .disposeControls .removeInputListeners ∧
    runsBefore rotatingCubeTeardown .removeInputListeners .detachCanvas ∧
    runsBefore rotatingCubeTeardown .detachCanvas .disposeRenderer ∧
    runsBefore rotatingCubeTeardown .disposeRenderer .disposeGpuResources ∧
    runsBefore immersiveSceneTeardown .removeResizeListener .cancelFrame ∧
    runsBefore immersiveSceneTeardown .cancelFrame .disposeControls ∧
    runsBefore immersiveSceneTeardown .disposeControls .detachCanvas ∧
    runsBefore immersiveSceneTeardown .detachCanvas .disposeRenderer ∧
    TeardownStep.disposeGpuResources ∉ immersiveSceneTeardown := by
  decide

/-! Particle-system tick (`ImmersiveScene.tsx` animate loop) -/

/-- One particle of a city particle system: a position and the velocity
seeded for it at build time (stored in the `velocity` buffer attribute
and never changed afterwards). -/
structure Particle where
  px : ℚ
  py : ℚ
  pz : ℚ
  vx : ℚ
  vy : ℚ
  vz : ℚ
deriving DecidableEq, Repr

/-- One tick's update of a single particle, from the `animate` loop of
`ImmersiveScene.tsx`: add the velocity to the position, then — if the
new vertical coordinate is below `0`, or the new horizontal coordinates
left the `±100` bounds — respawn the particle at
`((r1 - 0.5) * 200, 50 + r2 * 50, (r3 - 0.5) * 200)`, where
`r1, r2, r3` are the three `Math.random()` draws of the respawn branch.
The velocity is never modified. -/
def tickParticle (r1 r2 r3 : ℚ) (p : Particle) : Particle :=
  let nx := p.px + p.vx
  let ny := p.py + p.vy
  let nz := p.pz + p.vz
  if ny < 0 ∨ 100 < |nx| ∨ 100 < |nz| then
    { p with px := (r1 - 1/2) * 200, py := 50 + r2 * 50, pz := (r3 - 1/2) * 200 }
  else
    { p with px := nx, py := ny, pz := nz }

/-- C8: For a particle with downward vertical velocity whose horizontal
coordinates stay within the `±100` bounds for this tick, and respawn
draws in `[0, 1)`: one tick decreases the vertical coordinate by the
magnitude of the assigned vertical velocity, and if that drops it below
`0` the particle is instead respawned at vertical coordinate
`50 + r2 * 50`, which is at least `50`. -/
theorem particle_tick_fall_and_respawn (p : Particle) (r1 r2 r3 : ℚ)
    (hv : p.vy ≤ 0) (hr : 0 ≤ r2)
    (hx : |p.px + p.vx| ≤ 100) (hz : |p.pz + p.vz| ≤ 100) :
    (p.py + p.vy < 0 →
      (tickParticle r1 r2 r3 p).py = 50 + r2 * 50 ∧
      50 ≤ (tickParticle r1 r2 r3 p).py) ∧
    (0 ≤ p.py + p.vy →
      (tickParticle r1 r2 r3 p).py = p.py - |p.vy|) ∧
    (tickParticle r1 r2 r3 p).vy = p.vy := by
  have habs : |p.vy| = -p.vy := abs_of_nonpos hv
  refine ⟨?_, ?_, ?_⟩
  · intro hfall
    have hcond : p.py + p.vy < 0 ∨ 100 < |p.px + p.vx| ∨ 100 < |p.pz + p.vz| :=
      Or.inl hfall
    constructor
    · simp only [tickParticle, if_pos hcond]
    · simp only [tickParticle, if_pos hcond]
      nlinarith [hr]
  · intro hstay
    have hcond : ¬ (p.py + p.vy < 0 ∨ 100 < |p.px + p.vx| ∨ 100 < |p.pz + p.vz|) := by
      push_neg
      exact ⟨hstay, hx, hz⟩
    simp only [tickParticle, if_neg hcond]
    rw [habs]; ring
  · simp only [tickParticle]
    split <;> rfl

/-- Witness for `particle_tick_fall_and_respawn`: a rain particle at
height `1` falling with velocity `-2` crosses `0` and respawns at
`50 + 0.5 * 50 = 75`. -/
theorem particle_tick_witness :
    ((⟨0, 1, 0, 0, -2, 0⟩ : Particle).vy ≤ 0 ∧ (0 : ℚ) ≤ 1/2 ∧
      |(⟨0, 1, 0, 0, -2, 0⟩ : Particle).px + (⟨0, 1, 0, 0, -2, 0⟩ : Particle).vx| ≤ 100 ∧
      |(⟨0, 1, 0, 0, -2, 0⟩ : Particle).pz + (⟨0, 1, 0, 0, -2, 0⟩ : Particle).vz| ≤ 100) ∧
    (((⟨0, 1, 0, 0, -2, 0⟩ : Particle).py + (⟨0, 1, 0, 0, -2, 0⟩ : Particle).vy < 0 →
        (tickParticle (1/2) (1/2) (1/2) ⟨0, 1, 0, 0, -2, 0⟩).py = 50 + (1/2) * 50 ∧
        50 ≤ (tickParticle (1/2) (1/2) (1/2) ⟨0, 1, 0, 0, -2, 0⟩).py) ∧
      (0 ≤ (⟨0, 1, 0, 0, -2, 0⟩ : Particle).py + (⟨0, 1, 0, 0, -2, 0⟩ : Particle).vy →
        (tickParticle (1/2) (1/2) (1/2) ⟨0, 1, 0, 0, -2, 0⟩).py =
          (⟨0, 1, 0, 0, -2, 0⟩ : Particle).py - |(⟨0, 1, 0, 0, -2, 0⟩ : Particle).vy|) ∧
      (tickParticle (1/2) (1/2) (1/2) ⟨0, 1, 0, 0, -2, 0⟩).vy =
        (⟨0, 1, 0, 0, -2, 0⟩ : Particle).vy) :=
  ⟨⟨by norm_num, by norm_num, by norm_num, by norm_num⟩,
    particle_tick_fall_and_respawn ⟨0, 1, 0, 0, -2, 0⟩ (1/2) (1/2) (1/2)
      (by norm_num) (by norm_num) (by norm_num) (by norm_num)⟩

/-! Content Builder: procedural city (`ImmersiveScene.tsx`) -/

/-- One building of the procedural city: the box dimensions and grid
position passed to `createBuilding`, and the hue component of the
randomized HSL color of its main structure. -/
structure Building where
  width : ℚ
  height : ℚ
  depth : ℚ
  x : ℚ
  z : ℚ
  hue : ℚ
deriving DecidableEq, Repr

/-- The factory `createBuilding(width, height, depth, x, z)`: the color hue is
`Math.random() * 0.1 + 0.5`; `hueDraw` is that random draw. -/
def createBuilding (width height depth x z hueDraw : ℚ) : Building :=
  { width := width, height := height, depth := depth, x := x, z := z,
    hue := hueDraw * (1/10) + 1/2 }

/-- The grid coordinates of the city loops
(`for x = -60; x <= 60; x += 20`). -/
def gridCoords : List ℚ := [-60, -40, -20, 0, 20, 40, 60]

/-- The grid cells that receive a building: all `(x, z)` pairs of the
two nested loops except the cleared center area
(`if (Math.abs(x) < 10 && Math.abs(z) < 10) continue`). -/
def cityCells : List (ℚ × ℚ) :=
  gridCoords.flatMap fun x =>
    gridCoords.filterMap fun z =>
      if |x| < 10 ∧ |z| < 10 then none else some (x, z)

/-- The city-generation pass: for the `i`-th kept grid cell, draw
`width = 4 + Math.random() * 6`, `height = 10 + Math.random() * 40`,
`depth = 4 + Math.random() * 6` and the color draw inside
`createBuilding`, consuming four values of the `Math.random()` stream
`rand` per building, in source order. -/
def generateCity (rand : ℕ → ℚ) : List Building :=
  cityCells.enum.map fun c =>
    createBuilding (4 + rand (4 * c.1) * 6) (10 + rand (4 * c.1 + 1) * 40)
      (4 + rand (4 * c.1 + 2) * 6) c.2.1 c.2.2 (rand (4 * c.1 + 3))

/-- C2 counterexample: the build step is not deterministic with respect
to its configuration — it consumes the ambient `Math.random()` stream,
so two runs with identical configuration but different random draws
(here the constant streams `0` and `1/2`) produce buildings of different
dimensions and colors. -/
theorem city_build_not_config_deterministic :
    generateCity (fun _ => 0) ≠ generateCity (fun _ => 1/2) := by
  intro h
  have h2 : (generateCity (fun _ => 0)).head? =
      (generateCity (fun _ => 1/2)).head? := by rw [h]
  norm_num [generateCity, cityCells, gridCoords, createBuilding] at h2

/-- C2 amended: the build step is a pure function of the configuration
together with the consumed random draws — two runs that read equal
values from the `Math.random()` stream produce identical object graphs
(same dimensions, positions and colors); with differing draws the
graphs differ. -/
theorem city_build_deterministic_given_randomness (r1 r2 : ℕ → ℚ)
    (h : ∀ n, r1 n = r2 n) : generateCity r1 = generateCity r2 := by
  rw [funext h]

/-- Witness for `city_build_deterministic_given_randomness` at the
constant-zero stream. -/
theorem city_build_deterministic_witness :
    (∀ n : ℕ, (fun _ : ℕ => (0 : ℚ)) n = (fun _ : ℕ => (0 : ℚ)) n) ∧
    generateCity (fun _ => 0) = generateCity (fun _ => 0) :=
  ⟨fun _ => rfl,
    city_build_deterministic_given_randomness (fun _ => 0) (fun _ => 0)
      (fun _ => rfl)⟩

/-! Content Builder: galaxy point cloud (the galactic solar-system
component) -/

/-- The build-time constants of the galaxy point cloud. -/
def galaxyParticleCount : ℕ := 20000

/-- The constant `galaxyRadius = 200`. -/
def galaxyRadiusQ : ℚ := 200

/-- The constant `galaxyArms = 4`. -/
def galaxyArms : ℕ := 4

/-- The constant `randomness = 0.3`. -/
def galaxyRandomness : ℚ := 3/10

/-- One point of the galaxy cloud with all its per-point buffer
attributes: position, color, scale and the three random phase values
used by the vertex shader. -/
structure GalaxyPoint where
  posX : ℚ
  posY : ℚ
  posZ : ℚ
  colR : ℚ
  colG : ℚ
  colB : ℚ
  scale : ℚ
  rndX : ℚ
  rndY : ℚ
  rndZ : ℚ
deriving DecidableEq, Repr

/-- The sign draw `Math.random() < 0.5 ? 1 : -1`. -/
def signDraw (r : ℚ) : ℚ := if r < 1/2 then 1 else -1

/-- The `i`-th point of the galaxy build loop. `cosO`/`sinO` are the
`Math.cos`/`Math.sin` oracles, `piQ` stands for `Math.PI`, and `rand`
is the `Math.random()` stream; the loop body consumes eleven draws per
point, indexed here in source order. Color channels linearly mix the
inside color `0xff6030` toward the outside color `0x1b3984` by
`radius / galaxyRadius`. -/
def galaxyPoint (cosO sinO : ℚ → ℚ) (piQ : ℚ) (rand : ℕ → ℚ) (i : ℕ) :
    GalaxyPoint :=
  let d : ℕ → ℚ := fun j => rand (11 * i + j)
  let radius := d 0 * galaxyRadiusQ
  let spinAngle := radius * (2/10)
  let branchAngle := (((i % galaxyArms : ℕ) : ℚ) / (galaxyArms : ℚ)) * piQ * 2
  let randomX := (d 1)^3 * signDraw (d 2) * galaxyRandomness * radius
  let randomY := (d 3)^3 * signDraw (d 4) * galaxyRandomness * radius
  let randomZ := (d 5)^3 * signDraw (d 6) * galaxyRandomness * radius
  let t := radius / galaxyRadiusQ
  { posX := cosO (branchAngle + spinAngle) * radius + randomX
    posY := randomY * (1/10)
    posZ := sinO (branchAngle + spinAngle) * radius + randomZ
    colR := 1 + (27/255 - 1) * t
    colG := 96/255 + (57/255 - 96/255) * t
    colB := 48/255 + (132/255 - 48/255) * t
    scale := d 7 * (1/2) + 1/2
    rndX := (d 8 - 1/2) * 2
    rndY := (d 9 - 1/2) * 2
    rndZ := (d 10 - 1/2) * 2 }

/-- The full build pass of the galaxy point cloud: every per-point
attribute written once, at build time. -/
def galaxyBuildPoints (cosO sinO : ℚ → ℚ) (piQ : ℚ) (rand : ℕ → ℚ) :
    List GalaxyPoint :=
  (List.range galaxyParticleCount).map (galaxyPoint cosO sinO piQ rand)

/-- The per-frame state of the galaxy demo: the built point cloud, the
particle system's rotation, the two shader uniforms and the `timeRef`
accumulator. -/
structure GalaxyState where
  points : List GalaxyPoint
  rotY : ℚ
  uTime : ℚ
  uSize : ℚ
  time : ℚ
deriving Repr

/-- The state right after mount: attributes from the build pass,
`uSize = 25 * pixelRatio`, everything else zero. -/
def initGalaxy (cosO sinO : ℚ → ℚ) (piQ : ℚ) (rand : ℕ → ℚ)
    ( pixelRatio : ℚ) : GalaxyState :=
  { points := galaxyBuildPoints cosO sinO piQ rand
    rotY := 0, uTime := 0, uSize := 25 * pixelRatio, time := 0 }

/-- The galaxy part of the `animate` body: advance `timeRef` by `0.01`,
set the particle system's rotation to `time * 0.02` and the `uTime`
uniform to `time`. No per-point attribute is touched. -/
def galaxyTick (g : GalaxyState) : GalaxyState :=
  let t := g.time + 1/100
  { g with time := t, rotY := t * (2/100), uTime := t }

/-- C9: Every per-point attribute of the galaxy cloud is written at
build time and never afterwards: after any number of frame ticks the
point buffers still hold exactly the build-pass values, and a single
tick changes only the rotation, the time uniform and the time
accumulator — constant work independent of the particle count. -/
theorem galaxy_update_leaves_buffers_unchanged (cosO sinO : ℚ → ℚ)
    (piQ : ℚ) (rand : ℕ → ℚ) ( pixelRatio : ℚ) (n : ℕ) :
    (galaxyTick^[n] (initGalaxy cosO sinO piQ rand pixelRatio)).points =
      galaxyBuildPoints cosO sinO piQ rand ∧
    ∀ g : GalaxyState,
      (galaxyTick g).points = g.points ∧
      (galaxyTick g).uSize = g.uSize ∧
      (galaxyTick g).rotY = (g.time + 1/100) * (2/100) ∧
      (galaxyTick g).uTime = g.time + 1/100 := by
  constructor
  · induction n with
    | zero => simp [Function.iterate_zero_apply, initGalaxy]
    | succ k ih =>
      rw [Function.iterate_succ_apply']
      simpa [galaxyTick] using ih
  · intro g
    exact ⟨rfl, rfl, rfl, rfl⟩

end ThreeStarter
